import Mathlib

/-!
Verification of the uproot4 basket-fetch/stitch subsystem against its spec.

The development shallowly embeds:
* the entry-range normalization and the fragment stitcher (`final_array`),
  modelled from the spec because the numerical interpretation's code is not
  among the repository files provided (only its tests are);
* the futures/executor layer of `src/uproot4/source/futures.py`
  (`NoFuture`, `TrivialExecutor`, `Future`, `Worker`, `ThreadPoolExecutor`,
  `ResourceFuture`, `ResourceWorker`, `ResourceThreadPoolExecutor`);
* the grouped interpretation `AsGrouped` of
  `src/uproot4/interpretation/grouped.py`;
* the array-request cache-key grammar, modelled from the spec because the
  key-building code is not among the repository files provided.

Python exceptions are embedded as an explicit error type carried by
`Except`; raising is returning `.error`.  Machine behaviour that cannot be
embedded (real threads, wall-clock timeouts) is modelled by explicit state
passing and a deterministic round-based scheduler.
-/

/-- Python exceptions raised by the embedded code. -/
inductive PyError where
  | valueError : String → PyError
  | osError : String → PyError
  | other : String → PyError
deriving Repr, DecidableEq

/-! ### Entry-range normalization and the stitcher

Modelled from the spec: the numerical interpretation's `final_array` and the
entry-bound regularization are not among the provided source files; the spec
says "For each branch in the request, normalize `entry_start`/`entry_stop`
against the branch's total entry count (negative values add the total;
values are clamped to `[0, total]`)" and "`final_array` ... clips each
fragment to its intersection with `[entry_start, entry_stop)` using the
basket-level entry offsets to locate fragment boundaries, concatenates the
clipped pieces in basket order". -/

/-- Modelled from the spec: normalization of one entry bound against the
branch's total entry count — a negative value adds the total, and the result
is clamped to `[0, total]`. -/
def normalize_entry (x : Int) (total : Nat) : Nat :=
  (max 0 (min (if x < 0 then x + total else x) (total : Int))).toNat

/-- Modelled from the spec: one basket fragment, covering global entries
`[bstart, bstop)`, clipped to its intersection with the requested range
`[estart, estop)`. -/
def clip_fragment (frag : List Int) (bstart bstop estart estop : Nat) : List Int :=
  (frag.drop (max bstart estart - bstart)).take (min bstop estop - max bstart estart)

/-- Modelled from the spec: `final_array` — clip every basket fragment to its
intersection with the requested entry range, locating fragment boundaries
with the entry-offset list, and concatenate the clipped pieces in basket
order. -/
def final_array : List (List Int) → Nat → Nat → List Nat → List Int
  | [], _, _, _ => []
  | f :: fs, estart, estop, a :: b :: rest =>
      clip_fragment f a b estart estop ++ final_array fs estart estop (b :: rest)
  | _ :: _, _, _, _ => []

/-- The entry-offset list is well formed for the fragment list: it has one
more element than there are fragments and consecutive offsets differ by the
corresponding fragment's length (basket entry ranges are contiguous,
non-overlapping and increasing). -/
def offsets_match : List (List Int) → List Nat → Bool
  | [], [_] => true
  | f :: fs, a :: b :: rest => decide (b = a + f.length) && offsets_match fs (b :: rest)
  | _, _ => false

theorem take_congr_of_length_le {α : Type} (l : List α) {m n : Nat}
    (hm : l.length ≤ m) (hn : l.length ≤ n) : l.take m = l.take n := by
  rw [List.take_of_length_le hm, List.take_of_length_le hn]

/-- Stitching a well-offset fragment list whose first offset is `a` yields
exactly the slice of the fragments' concatenation that meets
`[estart, estop)`. -/
theorem final_array_eq_slice (frags : List (List Int)) :
    ∀ (a : Nat) (rest : List Nat) (s t : Nat),
      offsets_match frags (a :: rest) = true →
      final_array frags s t (a :: rest)
        = (frags.flatten.drop (s - a)).take
            (min (a + frags.flatten.length) t - max a s) := by
  induction frags with
  | nil =>
    intro a rest s t h
    cases rest with
    | nil => simp [final_array]
    | cons b r => simp [offsets_match] at h
  | cons f fs ih =>
    intro a rest s t h
    cases rest with
    | nil => simp [offsets_match] at h
    | cons b r =>
      simp only [offsets_match, Bool.and_eq_true, decide_eq_true_eq] at h
      obtain ⟨hb, hrest⟩ := h
      simp only [final_array, List.flatten_cons, List.length_append]
      rw [ih b r s t hrest]
      rw [List.drop_append_eq_append_drop, List.take_append_eq_append_take]
      have hdl : (f.drop (s - a)).length = f.length - (s - a) :=
        List.length_drop _ _
      congr 1
      · -- the head fragment's clipped piece
        unfold clip_fragment
        have hmax : max a s - a = s - a := by omega
        rw [hmax]
        by_cases hc : t ≤ b
        · have h1 : min b t = t := by omega
          have h2 : min (a + (f.length + fs.flatten.length)) t = t := by omega
          rw [h1, h2]
        · refine take_congr_of_length_le _ ?_ ?_ <;> omega
      · -- the stitched tail
        have hd : s - a - f.length = s - b := by omega
        have ht : min (a + (f.length + fs.flatten.length)) t - max a s
              - (f.drop (s - a)).length
            = min (b + fs.flatten.length) t - max b s := by
          rw [hdl]; omega
        rw [hd, ht]

theorem normalize_entry_le (x : Int) (total : Nat) :
    normalize_entry x total ≤ total := by
  unfold normalize_entry
  omega

/-- C1: for every ordered list of per-basket fragments with matching entry
offsets and every `(start, stop)` pair, negative stops included, the stitched
array of `final_array` at the normalized bounds equals the concatenation of
all fragments sliced to `[normalize start, normalize stop)`; in particular an
empty range after clipping yields an empty array, not an error. -/
theorem final_array_stitches_to_slice (frags : List (List Int)) (offs : List Nat)
    (start stop : Int)
    (h : offsets_match frags (0 :: offs) = true) :
    final_array frags (normalize_entry start frags.flatten.length)
        (normalize_entry stop frags.flatten.length) (0 :: offs)
      = (frags.flatten.drop (normalize_entry start frags.flatten.length)).take
          (normalize_entry stop frags.flatten.length
            - normalize_entry start frags.flatten.length)
    ∧ (normalize_entry stop frags.flatten.length
          ≤ normalize_entry start frags.flatten.length →
        final_array frags (normalize_entry start frags.flatten.length)
          (normalize_entry stop frags.flatten.length) (0 :: offs) = []) := by
  have hs := normalize_entry_le start frags.flatten.length
  have ht := normalize_entry_le stop frags.flatten.length
  have h1 := final_array_eq_slice frags 0 offs
    (normalize_entry start frags.flatten.length)
    (normalize_entry stop frags.flatten.length) h
  have h2 : normalize_entry start frags.flatten.length - 0
      = normalize_entry start frags.flatten.length := by omega
  have h3 : min (0 + frags.flatten.length)
        (normalize_entry stop frags.flatten.length)
      - max 0 (normalize_entry start frags.flatten.length)
    = normalize_entry stop frags.flatten.length
      - normalize_entry start frags.flatten.length := by omega
  rw [h2, h3] at h1
  refine ⟨h1, fun hts => ?_⟩
  rw [h1]
  have h4 : normalize_entry stop frags.flatten.length
      - normalize_entry start frags.flatten.length = 0 := by omega
  rw [h4, List.take_zero]

/-- The fragment list of `test_stitching_arrays`. -/
def demo_fragments : List (List Int) :=
  [[0, 1, 2, 3, 4], [5, 6], [], [7, 8, 9], [10], [11, 12, 13, 14]]

/-- The entry offsets of `test_stitching_arrays`, after the leading 0. -/
def demo_offsets_tail : List Nat := [5, 7, 7, 10, 11, 15]

theorem final_array_stitches_to_slice_witness :
    offsets_match demo_fragments (0 :: demo_offsets_tail) = true ∧
    (final_array demo_fragments (normalize_entry 3 demo_fragments.flatten.length)
        (normalize_entry (-5) demo_fragments.flatten.length) (0 :: demo_offsets_tail)
      = (demo_fragments.flatten.drop
            (normalize_entry 3 demo_fragments.flatten.length)).take
          (normalize_entry (-5) demo_fragments.flatten.length
            - normalize_entry 3 demo_fragments.flatten.length)
    ∧ (normalize_entry (-5) demo_fragments.flatten.length
          ≤ normalize_entry 3 demo_fragments.flatten.length →
        final_array demo_fragments
          (normalize_entry 3 demo_fragments.flatten.length)
          (normalize_entry (-5) demo_fragments.flatten.length)
          (0 :: demo_offsets_tail) = [])) :=
  ⟨by decide, final_array_stitches_to_slice demo_fragments demo_offsets_tail 3 (-5) (by decide)⟩

/-- The five baskets of the `sample/i4` branch, as `test_any_basket` decodes
them: 30 entries holding the values -15..14, with basket boundaries at
entries 0, 7, 14, 21, 28, 30. -/
def sample_i4_baskets : List (List Int) :=
  [[-15, -14, -13, -12, -11, -10, -9],
   [-8, -7, -6, -5, -4, -3, -2],
   [-1, 0, 1, 2, 3, 4, 5],
   [6, 7, 8, 9, 10, 11, 12],
   [13, 14]]

/-- Baskets as the spec's example states them: boundaries 0,7,14,21,28,29
give only 29 entries, so the last basket can hold `[13]` alone. -/
def claimed_i4_baskets : List (List Int) :=
  [[-15, -14, -13, -12, -11, -10, -9],
   [-8, -7, -6, -5, -4, -3, -2],
   [-1, 0, 1, 2, 3, 4, 5],
   [6, 7, 8, 9, 10, 11, 12],
   [13]]

/-- C2 counterexample: with the boundaries the claim states (0,7,14,21,28,29,
hence 29 entries in total), the values -15..14 do not even fit the offsets,
and the request `(3, -5)` — `-5` normalizing to `24` — yields the 21 values
-12..8, not the claimed 22 values -12..9. -/
theorem sample_i4_claimed_boundaries_counterexample :
    offsets_match sample_i4_baskets [0, 7, 14, 21, 28, 29] = false ∧
    final_array claimed_i4_baskets (normalize_entry 3 29) (normalize_entry (-5) 29)
        [0, 7, 14, 21, 28, 29]
      ≠ [-12, -11, -10, -9, -8, -7, -6, -5, -4, -3, -2, -1,
         0, 1, 2, 3, 4, 5, 6, 7, 8, 9] := by decide

/-- C2 (amended): with the branch's actual boundaries 0,7,14,21,28,30 — 30
entries holding -15..14 — the request `(3, -5)` normalizes the stop to 25
and yields exactly the 22 values -12..9, spanning basket boundaries. -/
theorem sample_i4_array_3_neg5 :
    final_array sample_i4_baskets (normalize_entry 3 30) (normalize_entry (-5) 30)
        [0, 7, 14, 21, 28, 30]
      = [-12, -11, -10, -9, -8, -7, -6, -5, -4, -3, -2, -1,
         0, 1, 2, 3, 4, 5, 6, 7, 8, 9] := by decide

/-! ### NoFuture and TrivialExecutor (`src/uproot4/source/futures.py`, use-case 1)

Python is dynamically typed, so to compare what `TrivialExecutor.submit`
returns with a Future object the embedding uses a small universe of runtime
objects in which a `NoFuture` instance is one constructor. -/

/-- A universe of Python runtime objects: integers, None, and `NoFuture`
instances (which hold the `_result` they were constructed with). -/
inductive PyObject where
  | int : Int → PyObject
  | pyNone : PyObject
  | noFutureObj : PyObject → PyObject
deriving Repr, DecidableEq

/-- Whether a runtime object is a (No)Future instance. -/
def PyObject.is_future : PyObject → Bool
  | .noFutureObj _ => true
  | _ => false

/-- `NoFuture.__init__`: store the already-computed result. -/
def NoFuture.init (result : PyObject) : PyObject :=
  .noFutureObj result

/-- `NoFuture.result(timeout=None)`: return the stored `_result`.  `none`
means the receiver is not a `NoFuture` instance (an attribute error in
Python, unreachable in typed use). -/
def NoFuture.result (f : PyObject) (_timeout : Option Nat) : Option PyObject :=
  match f with
  | .noFutureObj r => some r
  | _ => none

/-- `TrivialExecutor.submit(task, *args)`: `return task(*args)` — the task
runs immediately on the calling thread and its return value is returned
as-is. -/
def TrivialExecutor.submit (task : List PyObject → PyObject)
    (args : List PyObject) : PyObject :=
  task args

/-- C3 counterexample: submitting a task that returns the integer 4 yields
the integer 4 itself, which is not a Future object of any kind — so
`TrivialExecutor.submit` does not return an already-resolved Future. -/
theorem trivial_submit_not_future_counterexample :
    TrivialExecutor.submit (fun _ => PyObject.int 4) [] = PyObject.int 4 ∧
    (TrivialExecutor.submit (fun _ => PyObject.int 4) []).is_future = false :=
  ⟨rfl, rfl⟩

/-- C3 (amended): `TrivialExecutor.submit` runs the task immediately on the
caller's thread and returns the task's return value directly, unwrapped;
the already-resolved `NoFuture` variant is constructed separately, and
`result()` on it yields the stored value for any timeout. -/
theorem trivial_submit_runs_task (task : List PyObject → PyObject)
    (args : List PyObject) (r : PyObject) (timeout : Option Nat) :
    TrivialExecutor.submit task args = task args ∧
    NoFuture.result (NoFuture.init r) timeout = some r :=
  ⟨rfl, rfl⟩

/-! ### Future, Worker, ThreadPoolExecutor (use-case 2)

A task together with its captured arguments is embedded as its evaluation
outcome: `Except.ok v` when `task(*args)` returns `v`, `Except.error e` when
it raises `e`.  `threading.Event` is a `Bool`.  `result()` first waits on
the `_finished` event: with no timeout the wait only ever returns once the
event is set, so on a pending future the call blocks, which the pure model
renders as `none` (no outcome observable); with a finite timeout the wait
can also return by expiry with the event still unset — the code ignores
`wait`'s return value and falls through to the `_excinfo`/`_result` read
either way. -/

/-- The state of a `Future`: its task, the `_finished` event, and the
`_result` / `_excinfo` slots. -/
structure Future (α : Type) where
  _task : Except PyError α
  _finished : Bool
  _result : Option α
  _excinfo : Option PyError

/-- `Future.__init__`: pending, with empty result and excinfo slots. -/
def Future.init {α : Type} (task : Except PyError α) : Future α :=
  ⟨task, false, none, none⟩

/-- `Future._run`: evaluate the task, storing its value in `_result` or the
raised exception in `_excinfo`, then set `_finished`. -/
def Future._run {α : Type} (f : Future α) : Future α :=
  match f._task with
  | .ok v => { f with _result := some v, _finished := true }
  | .error e => { f with _excinfo := some e, _finished := true }

/-- `Future.result(timeout=None)`: `self._finished.wait(timeout=timeout)`,
then — ignoring whether the wait was satisfied or timed out — re-raise the
captured `_excinfo` if there is one and return `_result` otherwise.  `f` is
the future's state when the wait returns.  With `timeout=None` the wait
returns only once `_finished` is set, so a pending future gives the outer
`none` (the call is still blocking); with a finite timeout the wait can
also return by expiry, and the code then falls through and returns the
still-unset `_result` — Python's `None`.  The `Except` layer models
re-raising on the calling thread. -/
def Future.result {α : Type} (f : Future α) (timeout : Option Nat) :
    Option (Except PyError (Option α)) :=
  match timeout, f._finished with
  | none, false => none
  | _, _ =>
      some (match f._excinfo with
            | some e => .error e
            | none => .ok f._result)

/-- The outcome `result()` reports for a task, once the future resolved. -/
def task_outcome {α : Type} (task : Except PyError α) :
    Except PyError (Option α) :=
  match task with
  | .ok v => .ok (some v)
  | .error e => .error e

/-- C4 counterexample: on a still-pending future — the task would return 7
but has not run — `result()` whose finite timeout has expired does not keep
blocking until resolution, and what it returns is neither the task's value
nor a re-raised error: it is the still-unset `_result`, Python's `None`. -/
theorem future_result_timeout_counterexample :
    (Future.init (Except.ok (7 : Int)))._finished = false ∧
    Future.result (Future.init (Except.ok (7 : Int))) (some 1)
      = some (Except.ok none) ∧
    Future.result (Future.init (Except.ok (7 : Int))) (some 1)
      ≠ some (task_outcome (Except.ok (7 : Int))) :=
  ⟨rfl, rfl, by intro h; simp [Future.result, Future.init, task_outcome] at h⟩

/-- C4 (amended): `result()` with no timeout blocks on a pending future (no
outcome is observable before resolution); when a finite timeout expires
before resolution, `result()` returns the unset `_result` — Python's
`None` — instead of blocking or raising; once `_run` resolves the future,
`result()` — with any timeout — returns the task's value if it succeeded
and re-raises the captured error if it failed, and any two calls to
`result()` after resolution observe the very same outcome without mutating
the future. -/
theorem future_result_spec {α : Type} (task : Except PyError α)
    (t1 t2 : Option Nat) (t : Nat) :
    Future.result (Future.init task) none = none ∧
    Future.result (Future.init task) (some t) = some (.ok none) ∧
    (Future._run (Future.init task))._finished = true ∧
    Future.result (Future._run (Future.init task)) t1 = some (task_outcome task) ∧
    Future.result (Future._run (Future.init task)) t1
      = Future.result (Future._run (Future.init task)) t2 := by
  refine ⟨rfl, rfl, ?_, ?_, ?_⟩
  · cases task <;> rfl
  · cases task <;> cases t1 <;> rfl
  · cases task <;> cases t1 <;> cases t2 <;> rfl

/-! ### Worker (use-case 2)

`Worker.run` drains the shared queue: each item is either a `Future` to run
or the `None` sentinel that stops the thread.  The model runs the worker on
the finite queue contents, returning the futures it settled in order. -/

/-- `Worker.run`: take items off the work queue, stopping at the first
`None` sentinel and running every future before it — a task failure settles
that future and the loop simply continues with the next item. -/
def Worker.run {α : Type} : List (Option (Future α)) → List (Future α)
  | [] => []
  | none :: _ => []
  | some fut :: rest => Future._run fut :: Worker.run rest

/-- C5: a worker given any queue of submitted tasks (then the sentinel)
settles every one of them in order, also past failing tasks — a failure is
captured in that future at the point of failure and does not stop the
worker — and `result()` on each settled future then reports, on whatever
thread calls it, the task's value or re-raises the captured error with its
original identity. -/
theorem worker_run_spec {α : Type} (ts : List (Except PyError α)) :
    Worker.run (ts.map (fun t => some (Future.init t)) ++ [none])
      = ts.map (fun t => Future._run (Future.init t)) ∧
    (∀ t ∈ ts, Future.result (Future._run (Future.init t)) none
      = some (task_outcome t)) := by
  constructor
  · induction ts with
    | nil => rfl
    | cons t ts ih =>
      simp only [List.map_cons, List.cons_append, Worker.run, List.append_eq, ih]
  · intro t _
    cases t <;> rfl

theorem worker_run_spec_witness :
    (Worker.run ([Except.ok (1 : Int), Except.error (PyError.valueError "boom"),
        Except.ok 2].map (fun t => some (Future.init t)) ++ [none])
      = [Except.ok (1 : Int), Except.error (PyError.valueError "boom"),
        Except.ok 2].map (fun t => Future._run (Future.init t))) ∧
    Future.result (Future._run (Future.init
        (Except.error (PyError.valueError "boom") : Except PyError Int))) none
      = some (task_outcome (Except.error (PyError.valueError "boom"))) :=
  ⟨(worker_run_spec [Except.ok (1 : Int),
      Except.error (PyError.valueError "boom"), Except.ok 2]).1,
   (worker_run_spec [Except.ok (1 : Int),
      Except.error (PyError.valueError "boom"), Except.ok 2]).2
     (Except.error (PyError.valueError "boom")) (by simp)⟩

/-! ### ResourceFuture and ResourceThreadPoolExecutor (use-case 3)

A `Resource` is an owned I/O handle; the embedding keeps only its
`file_path`, which the closed-pool error message uses.  A `ResourceFuture`'s
task takes the worker's resource as first argument; its externally-set
notification callback is modelled by whether one was set, and "invoking" it
by a returned flag. -/

/-- An owned I/O handle (`uproot4.source.chunk.Resource`): only the
`file_path` attribute is relevant here. -/
structure Resource where
  file_path : String
deriving Repr, DecidableEq

/-- The state of a `ResourceFuture`: its task (taking the worker's
resource), the `_finished` event, the `_result` / `_excinfo` slots, and
whether a `_notify` callback has been set. -/
structure ResourceFuture (α : Type) where
  _task : Resource → Except PyError α
  _finished : Bool
  _result : Option α
  _excinfo : Option PyError
  _notify : Bool

/-- `ResourceFuture.__init__`: pending, no callback set. -/
def ResourceFuture.init {α : Type} (task : Resource → Except PyError α) :
    ResourceFuture α :=
  ⟨task, false, none, none, false⟩

/-- `ResourceFuture._set_notify`: record that a notification callback was
set. -/
def ResourceFuture._set_notify {α : Type} (f : ResourceFuture α) :
    ResourceFuture α :=
  { f with _notify := true }

/-- `ResourceFuture._set_excinfo`: only if `_finished` is not yet set,
record the injected error, set `_finished`, and invoke `_notify` if one was
set.  The returned flag says whether the callback was invoked. -/
def ResourceFuture._set_excinfo {α : Type} (f : ResourceFuture α)
    (e : PyError) : ResourceFuture α × Bool :=
  if f._finished then (f, false)
  else ({ f with _excinfo := some e, _finished := true }, f._notify)

/-- `ResourceFuture._run`: evaluate the task on the worker's resource,
store the value or the raised exception, set `_finished`, and invoke
`_notify` if one was set. -/
def ResourceFuture._run {α : Type} (f : ResourceFuture α) (resource : Resource) :
    ResourceFuture α × Bool :=
  (match f._task resource with
   | .ok v => { f with _result := some v, _finished := true }
   | .error e => { f with _excinfo := some e, _finished := true },
   f._notify)

/-- C10: an externally injected failure leaves an already-settled future
untouched (and invokes no callback); on a pending future it records the
error, marks the future finished, and invokes the notification callback
exactly when one was set — and `_run` likewise settles the future and then
invokes the callback exactly when one was set. -/
theorem resource_future_settle_spec {α : Type} (f : ResourceFuture α)
    (e : PyError) :
    (f._finished = true → ResourceFuture._set_excinfo f e = (f, false)) ∧
    (f._finished = false →
      ResourceFuture._set_excinfo f e
        = ({ f with _excinfo := some e, _finished := true }, f._notify)) ∧
    (∀ r : Resource, ((ResourceFuture._run f r).1)._finished = true ∧
      (ResourceFuture._run f r).2 = f._notify) := by
  refine ⟨fun h => ?_, fun h => ?_, fun r => ?_⟩
  · simp [ResourceFuture._set_excinfo, h]
  · simp [ResourceFuture._set_excinfo, h]
  · unfold ResourceFuture._run
    cases f._task r <;> exact ⟨rfl, rfl⟩

/-- A settled resource-future used to instantiate the specification. -/
def demo_resource_future : ResourceFuture Int :=
  ⟨fun _ => Except.ok 0, true, some 0, none, true⟩

theorem resource_future_settle_spec_witness :
    demo_resource_future._finished = true ∧
    ResourceFuture._set_excinfo demo_resource_future (PyError.osError "late")
      = (demo_resource_future, false) :=
  ⟨rfl, (resource_future_settle_spec demo_resource_future
    (PyError.osError "late")).1 rfl⟩

/-- The state of a `ResourceThreadPoolExecutor`: the `_closed` flag, the
shared work queue, and one worker per resource (each worker represented by
the resource bound to it). -/
structure ResourceThreadPoolExecutor (α : Type) where
  _closed : Bool
  _work_queue : List (Option (ResourceFuture α))
  _workers : List Resource

/-- `ResourceThreadPoolExecutor.__init__`: at least one resource is
required; otherwise start one worker per resource with an empty shared
queue and the pool open. -/
def ResourceThreadPoolExecutor.init {α : Type} (resources : List Resource) :
    Except PyError (ResourceThreadPoolExecutor α) :=
  if resources.length < 1 then
    .error (.valueError "at least one worker is required")
  else
    .ok ⟨false, [], resources⟩

/-- `ResourceThreadPoolExecutor.submit`: raise an `OSError` if the pool is
closed; otherwise put the given future on the shared queue and return that
same future. -/
def ResourceThreadPoolExecutor.submit {α : Type}
    (p : ResourceThreadPoolExecutor α) (future : ResourceFuture α) :
    Except PyError (ResourceFuture α × ResourceThreadPoolExecutor α) :=
  if p._closed then
    .error (.osError ("resource is closed for file "
      ++ ((p._workers.head?.map Resource.file_path).getD "")))
  else
    .ok (future, { p with _work_queue := p._work_queue ++ [some future] })

/-- C6: constructing the pool with zero resources fails fast with a
`ValueError`; with at least one resource it starts exactly one worker per
resource, open, with an empty queue; `submit` on a closed pool raises the
"closed" `OSError`, and on an open pool enqueues the future and returns
that same future object. -/
theorem resource_pool_construct_submit_spec {α : Type} :
    (ResourceThreadPoolExecutor.init (α := α) []
      = .error (.valueError "at least one worker is required")) ∧
    (∀ resources : List Resource, 1 ≤ resources.length →
      ResourceThreadPoolExecutor.init (α := α) resources
        = .ok ⟨false, [], resources⟩) ∧
    (∀ (p : ResourceThreadPoolExecutor α) (fut : ResourceFuture α),
      p._closed = true →
      ResourceThreadPoolExecutor.submit p fut
        = .error (.osError ("resource is closed for file "
            ++ ((p._workers.head?.map Resource.file_path).getD "")))) ∧
    (∀ (p : ResourceThreadPoolExecutor α) (fut : ResourceFuture α),
      p._closed = false →
      ResourceThreadPoolExecutor.submit p fut
        = .ok (fut, { p with _work_queue := p._work_queue ++ [some fut] })) := by
  refine ⟨rfl, fun resources h => ?_, fun p fut h => ?_, fun p fut h => ?_⟩
  · simp only [ResourceThreadPoolExecutor.init]
    rw [if_neg (by omega)]
  · simp [ResourceThreadPoolExecutor.submit, h]
  · simp [ResourceThreadPoolExecutor.submit, h]

/-- An open one-worker pool used to instantiate the specification. -/
def demo_pool : ResourceThreadPoolExecutor Int :=
  ⟨false, [], [⟨"sample.root"⟩]⟩

theorem resource_pool_construct_submit_spec_witness :
    ResourceThreadPoolExecutor.init (α := Int) [⟨"sample.root"⟩]
      = .ok ⟨false, [], [⟨"sample.root"⟩]⟩ ∧
    ResourceThreadPoolExecutor.submit demo_pool demo_resource_future
      = .ok (demo_resource_future,
          { demo_pool with _work_queue := [some demo_resource_future] }) :=
  ⟨(resource_pool_construct_submit_spec (α := Int)).2.1 [⟨"sample.root"⟩]
      (by decide),
   (resource_pool_construct_submit_spec (α := Int)).2.2.2 demo_pool
      demo_resource_future rfl⟩

/-! ### Shutdown and close (`ThreadPoolExecutor.shutdown`,
`ResourceThreadPoolExecutor.close`)

`shutdown` loops: it puts one `None` sentinel on the queue per live worker,
lets the workers run, and returns only once no worker is alive.  Real
threads are modelled by a deterministic round-based scheduler: each round,
every live worker either finishes one outstanding task (`busy`) or consumes
one sentinel and stops.  The loop carries fuel (the Python loop spins until
the workers die); `none` means the fuel ran out, `some` a completed
shutdown.  `close` (`__exit__`) is `shutdown` followed by releasing every
worker's resource and setting `_closed`; the event trace records worker
stops, resource releases and the closing mark in order. -/

/-- One worker thread of the pool during shutdown: its bound resource,
whether the thread is still alive, and how many already-queued tasks it
still has to run before it would pick up a sentinel. -/
structure RWorkerState where
  resource : Resource
  alive : Bool
  busy : Nat
deriving Repr, DecidableEq

/-- Observable events of the shutdown/close protocol. -/
inductive PoolEvent where
  | workerStopped : Nat → PoolEvent
  | resourceReleased : Nat → PoolEvent
  | markedClosed : PoolEvent
deriving Repr, DecidableEq

/-- One scheduler round over the workers (listed with their indices): a live
worker with outstanding work finishes one task; a live idle worker consumes
one sentinel, if available, and stops. -/
def worker_round : List RWorkerState → Nat → Nat →
    List RWorkerState × Nat × List PoolEvent
  | [], s, _ => ([], s, [])
  | w :: ws, s, i =>
    if w.alive then
      if 0 < w.busy then
        let r := worker_round ws s (i + 1)
        ({ w with busy := w.busy - 1 } :: r.1, r.2.1, r.2.2)
      else if 0 < s then
        let r := worker_round ws (s - 1) (i + 1)
        ({ w with alive := false } :: r.1, r.2.1,
          PoolEvent.workerStopped i :: r.2.2)
      else
        let r := worker_round ws s (i + 1)
        (w :: r.1, r.2.1, r.2.2)
    else
      let r := worker_round ws s (i + 1)
      (w :: r.1, r.2.1, r.2.2)

/-- `ThreadPoolExecutor.shutdown`: while any worker is alive, put one
sentinel per live worker and let the workers run a round; return — with the
accumulated event trace — only once no worker is alive. -/
def shutdown_loop : Nat → List RWorkerState → Nat →
    Option (List RWorkerState × List PoolEvent)
  | 0, _, _ => none
  | fuel + 1, ws, s =>
    let s1 := s + (ws.filter (fun w => w.alive)).length
    let r := worker_round ws s1 0
    if r.1.all (fun w => !w.alive) then some (r.1, r.2.2)
    else (shutdown_loop fuel r.1 r.2.1).map (fun q => (q.1, r.2.2 ++ q.2))

/-- `ResourceThreadPoolExecutor.close` (via `__exit__`): run `shutdown`,
then release every worker's resource, then mark the pool closed. -/
def resource_pool_close (fuel : Nat) (ws : List RWorkerState) (s : Nat) :
    Option ((List RWorkerState × Bool) × List PoolEvent) :=
  (shutdown_loop fuel ws s).map (fun q =>
    ((q.1, true),
      q.2 ++ (List.range q.1.length).map PoolEvent.resourceReleased
          ++ [PoolEvent.markedClosed]))

theorem worker_round_events : ∀ (ws : List RWorkerState) (s i : Nat),
    ∀ e ∈ (worker_round ws s i).2.2, ∃ j, e = PoolEvent.workerStopped j := by
  intro ws
  induction ws with
  | nil => intro s i e he; simp [worker_round] at he
  | cons w ws ih =>
    intro s i e he
    simp only [worker_round] at he
    split at he
    · split at he
      · exact ih s (i + 1) e he
      · split at he
        · simp only [List.mem_cons] at he
          rcases he with h | h
          · exact ⟨i, h⟩
          · exact ih (s - 1) (i + 1) e h
        · exact ih s (i + 1) e he
    · exact ih s (i + 1) e he

theorem shutdown_loop_all_stopped : ∀ (fuel : Nat) (ws : List RWorkerState)
    (s : Nat) (r : List RWorkerState × List PoolEvent),
    shutdown_loop fuel ws s = some r → r.1.all (fun w => !w.alive) = true := by
  intro fuel
  induction fuel with
  | zero => intro ws s r h; simp [shutdown_loop] at h
  | succ fuel ih =>
    intro ws s r h
    simp only [shutdown_loop] at h
    split at h
    · rename_i hall
      cases h
      exact hall
    · rcases Option.map_eq_some'.mp h with ⟨q, hq, hr⟩
      cases hr
      exact ih _ _ q hq

theorem shutdown_loop_events : ∀ (fuel : Nat) (ws : List RWorkerState)
    (s : Nat) (r : List RWorkerState × List PoolEvent),
    shutdown_loop fuel ws s = some r →
    ∀ e ∈ r.2, ∃ j, e = PoolEvent.workerStopped j := by
  intro fuel
  induction fuel with
  | zero => intro ws s r h; simp [shutdown_loop] at h
  | succ fuel ih =>
    intro ws s r h
    simp only [shutdown_loop] at h
    split at h
    · cases h
      intro e he
      exact worker_round_events _ _ _ e he
    · rcases Option.map_eq_some'.mp h with ⟨q, hq, hr⟩
      cases hr
      intro e he
      rcases List.mem_append.mp he with h1 | h2
      · exact worker_round_events _ _ _ e h1
      · exact ih _ _ q hq e h2

/-- C7: whenever `close` returns, every worker thread has terminated, the
pool is marked closed, and the event trace is exactly a block of worker-stop
events followed by every worker's resource release and then the closing
mark — so no resource is released before all workers have stopped; moreover
`shutdown` itself never returns while any worker is still alive. -/
theorem resource_pool_close_spec (fuel : Nat) (ws : List RWorkerState)
    (s : Nat) (out : (List RWorkerState × Bool) × List PoolEvent)
    (h : resource_pool_close fuel ws s = some out) :
    out.1.1.all (fun w => !w.alive) = true ∧
    out.1.2 = true ∧
    (∃ stops, (∀ e ∈ stops, ∃ i, e = PoolEvent.workerStopped i) ∧
      out.2 = stops
        ++ (List.range out.1.1.length).map PoolEvent.resourceReleased
        ++ [PoolEvent.markedClosed]) ∧
    (∀ (fuel' : Nat) (ws' : List RWorkerState) (s' : Nat)
        (r : List RWorkerState × List PoolEvent),
      shutdown_loop fuel' ws' s' = some r →
      r.1.all (fun w => !w.alive) = true) := by
  rcases Option.map_eq_some'.mp h with ⟨q, hq, hout⟩
  cases hout
  refine ⟨shutdown_loop_all_stopped fuel ws s q hq, rfl,
    ⟨q.2, shutdown_loop_events fuel ws s q hq, rfl⟩,
    fun fuel' ws' s' r hr => shutdown_loop_all_stopped fuel' ws' s' r hr⟩

/-- The concrete outcome of closing a two-worker pool in which the first
worker still has one queued task. -/
def demo_close_out : (List RWorkerState × Bool) × List PoolEvent :=
  (([⟨⟨"a.root"⟩, false, 0⟩, ⟨⟨"b.root"⟩, false, 0⟩], true),
   [PoolEvent.workerStopped 1, PoolEvent.workerStopped 0,
    PoolEvent.resourceReleased 0, PoolEvent.resourceReleased 1,
    PoolEvent.markedClosed])

theorem resource_pool_close_spec_witness :
    resource_pool_close 3
        [⟨⟨"a.root"⟩, true, 1⟩, ⟨⟨"b.root"⟩, true, 0⟩] 0 = some demo_close_out ∧
    demo_close_out.1.1.all (fun w => !w.alive) = true ∧
    demo_close_out.1.2 = true :=
  ⟨by decide,
   (resource_pool_close_spec 3 [⟨⟨"a.root"⟩, true, 1⟩, ⟨⟨"b.root"⟩, true, 0⟩] 0
      demo_close_out (by decide)).1,
   (resource_pool_close_spec 3 [⟨⟨"a.root"⟩, true, 1⟩, ⟨⟨"b.root"⟩, true, 0⟩] 0
      demo_close_out (by decide)).2.1⟩

/-! ### AsGrouped (`src/uproot4/interpretation/grouped.py`)

The grouped interpretation aggregates subbranches; reading it directly is a
usage error.  Only the attributes its error message uses are embedded; the
dict of subbranches is kept as its ordered key list. -/

/-- Python `repr` of a string, as used in the error messages. -/
def py_repr (s : String) : String := "'" ++ s ++ "'"

/-- The attributes of a `TBranch` that `AsGrouped`'s messages use. -/
structure TBranchInfo where
  name : String
  file_path : String
  object_path : String
deriving Repr, DecidableEq

/-- The `AsGrouped` interpretation: the grouping branch, the names of the
subbranches that hold the actual data, and the optional typename. -/
structure AsGrouped where
  _branch : TBranchInfo
  _subbranches : List String
  _typename : Option String
deriving Repr, DecidableEq

/-- The message of the `ValueError` that both `AsGrouped.basket_array` and
`AsGrouped.final_array` raise. -/
def AsGrouped.grouping_message (g : AsGrouped) : String :=
  "grouping branches like " ++ py_repr g._branch.name
    ++ " should not be read directly; instead read the subbranches:\n\n    "
    ++ String.intercalate ", " (g._subbranches.map py_repr)
    ++ "\n\nin file " ++ g._branch.file_path
    ++ "\nin object " ++ g._branch.object_path

/-- `AsGrouped.basket_array`: unconditionally raises a `ValueError` sending
the caller to the subbranches. -/
def AsGrouped.basket_array {Data Offsets Basket Branch Context Library : Type}
    (g : AsGrouped) (_data : Data) (_byte_offsets : Offsets) (_basket : Basket)
    (_branch : Branch) (_context : Context) (_cursor_offset : Nat)
    (_library : Library) : Except PyError (List Int) :=
  .error (.valueError g.grouping_message)

/-- `AsGrouped.final_array`: unconditionally raises a `ValueError` sending
the caller to the subbranches. -/
def AsGrouped.final_array {Arrays Offsets Library Branch : Type}
    (g : AsGrouped) (_basket_arrays : Arrays) (_entry_start _entry_stop : Nat)
    (_entry_offsets : Offsets) (_library : Library) (_branch : Branch) :
    Except PyError (List Int) :=
  .error (.valueError g.grouping_message)

/-- C9: on every input, both `AsGrouped.basket_array` and
`AsGrouped.final_array` raise the `ValueError` that directs callers to the
constituent subbranches, and neither ever returns a value. -/
theorem as_grouped_refuses_direct_decode
    {Data Offsets Basket Branch Context Library Arrays Offsets2 Library2
      Branch2 : Type}
    (g : AsGrouped) (data : Data) (byte_offsets : Offsets) (basket : Basket)
    (branch : Branch) (context : Context) (cursor_offset : Nat)
    (library : Library) (basket_arrays : Arrays)
    (entry_start entry_stop : Nat) (entry_offsets : Offsets2)
    (library2 : Library2) (branch2 : Branch2) :
    AsGrouped.basket_array g data byte_offsets basket branch context
        cursor_offset library
      = .error (.valueError g.grouping_message) ∧
    AsGrouped.final_array g basket_arrays entry_start entry_stop entry_offsets
        library2 branch2
      = .error (.valueError g.grouping_message) ∧
    (∀ v, AsGrouped.basket_array g data byte_offsets basket branch context
        cursor_offset library ≠ .ok v) ∧
    (∀ v, AsGrouped.final_array g basket_arrays entry_start entry_stop
        entry_offsets library2 branch2 ≠ .ok v) :=
  ⟨rfl, rfl, fun _ h => Except.noConfusion h, fun _ h => Except.noConfusion h⟩

/-! ### Cache keys

Modelled from the spec: the key-building code is not among the provided
source files; the spec gives the grammar
`<file-uuid>:<object-path>;<cycle>:<branch-name>(<type-id>):<interpretation-signature>:<entry_start>-<entry_stop>:<output-library-tag>`
with the prefix-only object- and file-level forms. -/

/-- Modelled from the spec: the file-level cache key `<file-uuid>:<path>`. -/
def file_cache_key (file_uuid path : String) : String :=
  file_uuid ++ ":" ++ path

/-- Modelled from the spec: the object-level cache key
`<file-uuid>:<path>;<cycle>`. -/
def object_cache_key (file_uuid path : String) (cycle : Nat) : String :=
  file_uuid ++ ":" ++ path ++ ";" ++ toString cycle

/-- Modelled from the spec: the branch-level cache key
`<file-uuid>:<path>;<cycle>:<branch-name>(<type-id>)`. -/
def branch_cache_key (file_uuid path : String) (cycle : Nat)
    (branch_name : String) (type_id : Nat) : String :=
  object_cache_key file_uuid path cycle ++ ":" ++ branch_name
    ++ "(" ++ toString type_id ++ ")"

/-- Modelled from the spec: the array-request cache key, the branch-level
key extended with the interpretation signature, the resolved entry range
and the output-library tag. -/
def array_cache_key (file_uuid path : String) (cycle : Nat)
    (branch_name : String) (type_id : Nat) (interpretation_sig : String)
    (entry_start entry_stop : Nat) (library_tag : String) : String :=
  branch_cache_key file_uuid path cycle branch_name type_id
    ++ ":" ++ interpretation_sig
    ++ ":" ++ toString entry_start ++ "-" ++ toString entry_stop
    ++ ":" ++ library_tag

/-- C8: the array-request cache key is a pure deterministic function of the
request parameters — identical parameters give the identical key string —
the key follows the documented grammar exactly, reproducing the keys of
`test_cache` bit for bit, and a 4-byte integer branch named `i4` with type
id 16 produces the key segment `i4(16)`. -/
theorem cache_key_spec
    (u₁ u₂ p₁ p₂ : String) (c₁ c₂ : Nat) (b₁ b₂ : String) (t₁ t₂ : Nat)
    (i₁ i₂ : String) (s₁ s₂ e₁ e₂ : Nat) (l₁ l₂ : String)
    (hu : u₁ = u₂) (hp : p₁ = p₂) (hc : c₁ = c₂) (hb : b₁ = b₂) (ht : t₁ = t₂)
    (hi : i₁ = i₂) (hs : s₁ = s₂) (he : e₁ = e₂) (hl : l₁ = l₂) :
    array_cache_key u₁ p₁ c₁ b₁ t₁ i₁ s₁ e₁ l₁
      = array_cache_key u₂ p₂ c₂ b₂ t₂ i₂ s₂ e₂ l₂ ∧
    array_cache_key "db4be408-93ad-11ea-9027-d201a8c0beef" "/sample" 1 "i4" 16
        "AsDtype(Bi4(),Li4())" 0 30 "np"
      = "db4be408-93ad-11ea-9027-d201a8c0beef:/sample;1:i4(16):AsDtype(Bi4(),Li4()):0-30:np" ∧
    branch_cache_key "db4be408-93ad-11ea-9027-d201a8c0beef" "/sample" 1 "i4" 16
      = "db4be408-93ad-11ea-9027-d201a8c0beef:/sample;1:i4(16)" ∧
    object_cache_key "db4be408-93ad-11ea-9027-d201a8c0beef" "/sample" 1
      = "db4be408-93ad-11ea-9027-d201a8c0beef:/sample;1" ∧
    file_cache_key "db4be408-93ad-11ea-9027-d201a8c0beef" "/"
      = "db4be408-93ad-11ea-9027-d201a8c0beef:/" ∧
    (∃ pre post,
      branch_cache_key "db4be408-93ad-11ea-9027-d201a8c0beef" "/sample" 1 "i4" 16
        = pre ++ "i4(16)" ++ post) := by
  subst hu hp hc hb ht hi hs he hl
  refine ⟨rfl, by decide, by decide, by decide, by decide,
    ⟨"db4be408-93ad-11ea-9027-d201a8c0beef:/sample;1:", "", by decide⟩⟩

theorem cache_key_spec_witness :
    array_cache_key "db4be408-93ad-11ea-9027-d201a8c0beef" "/sample" 1 "i4" 16
        "AsDtype(Bi4(),Li4())" 0 30 "np"
      = array_cache_key "db4be408-93ad-11ea-9027-d201a8c0beef" "/sample" 1 "i4"
          16 "AsDtype(Bi4(),Li4())" 0 30 "np" ∧
    array_cache_key "db4be408-93ad-11ea-9027-d201a8c0beef" "/sample" 1 "i4" 16
        "AsDtype(Bi4(),Li4())" 0 30 "np"
      = "db4be408-93ad-11ea-9027-d201a8c0beef:/sample;1:i4(16):AsDtype(Bi4(),Li4()):0-30:np" :=
  ⟨(cache_key_spec "db4be408-93ad-11ea-9027-d201a8c0beef"
      "db4be408-93ad-11ea-9027-d201a8c0beef" "/sample" "/sample" 1 1 "i4" "i4"
      16 16 "AsDtype(Bi4(),Li4())" "AsDtype(Bi4(),Li4())" 0 0 30 30 "np" "np"
      rfl rfl rfl rfl rfl rfl rfl rfl rfl).1,
   (cache_key_spec "db4be408-93ad-11ea-9027-d201a8c0beef"
      "db4be408-93ad-11ea-9027-d201a8c0beef" "/sample" "/sample" 1 1 "i4" "i4"
      16 16 "AsDtype(Bi4(),Li4())" "AsDtype(Bi4(),Li4())" 0 0 30 30 "np" "np"
      rfl rfl rfl rfl rfl rfl rfl rfl rfl).2.1⟩
